import Mathlib

/-!
Shallow embedding of the scene-configuration validator of the
AbodePhysicshop repository (directory `src/simulator/`): the data model
(geometry, material, surface, options) and the validation / clamping /
domain auto-fit pass of `GenesisConfig`.

Python floats are modelled as exact rationals (`ℚ`); Python ints as `ℤ`.
The two square roots the source computes (`math.dist(bl, bu)` in
`config.py` and the gravity norm `math.sqrt(gx*gx+gy*gy+gz*gz)` in
`options.py`) are irrational in general, so the corresponding functions
take the root's value as an explicit parameter; theorems constrain it by
`IsEuclidDist` / `IsEuclidNorm` where its value matters.

Python's `raise ValueError(message)` is modelled as `Except.error` of a
`ValidationError`; constructors that the source formats data into the
message string carry that data as fields.
-/

namespace Physicshop

/-- `Vec3` of `auxiliary.py`: a 3-tuple of floats. -/
structure Vec3 where
  x : ℚ
  y : ℚ
  z : ℚ
  deriving DecidableEq, Repr

/-- `_clip(x, lo, hi)` of `auxiliary.py`: `max(lo, min(hi, x))`.
The source applies it to both floats and ints, hence the polymorphism. -/
def _clip {α : Type} [LinearOrder α] (x lo hi : α) : α :=
  max lo (min hi x)

/-- Componentwise `≤` on `Vec3`. -/
abbrev vle (a b : Vec3) : Prop :=
  a.x ≤ b.x ∧ a.y ≤ b.y ∧ a.z ≤ b.z

/-- Componentwise `<` on `Vec3`, the ordering test of
`GenesisConfig._check_or_fit_domain` step 1. -/
abbrev vlt (a b : Vec3) : Prop :=
  a.x < b.x ∧ a.y < b.y ∧ a.z < b.z

/- ### geometry.py -/

/-- The `Morph` union of `geometry.py`: `PlaneMorph`, `BoxMorph` (center
`pos`, full extents `size`), `SphereMorph` (center `pos`, `radius`). -/
inductive Morph where
  | plane : Morph
  | box (pos size : Vec3) : Morph
  | sphere (pos : Vec3) (radius : ℚ) : Morph
  deriving DecidableEq, Repr

/-- `aabb()` of each morph class: `PlaneMorph.aabb` returns `None`;
`BoxMorph.aabb` uses half of `abs(size)` on each side of `pos`;
`SphereMorph.aabb` uses `abs(radius)` on each side of `pos`. -/
def Morph.aabb : Morph → Option (Vec3 × Vec3)
  | .plane => none
  | .box p s =>
      some (⟨p.x - |s.x| / 2, p.y - |s.y| / 2, p.z - |s.z| / 2⟩,
            ⟨p.x + |s.x| / 2, p.y + |s.y| / 2, p.z + |s.z| / 2⟩)
  | .sphere p r =>
      some (⟨p.x - |r|, p.y - |r|, p.z - |r|⟩,
            ⟨p.x + |r|, p.y + |r|, p.z + |r|⟩)

/- ### config.py helpers -/

/-- `_min3` of `config.py`: componentwise minimum. -/
def _min3 (a b : Vec3) : Vec3 :=
  ⟨min a.x b.x, min a.y b.y, min a.z b.z⟩

/-- `_max3` of `config.py`: componentwise maximum. -/
def _max3 (a b : Vec3) : Vec3 :=
  ⟨max a.x b.x, max a.y b.y, max a.z b.z⟩

/-- `_aabb_union` of `config.py`: `None` on either side yields the other
side, otherwise the componentwise (min, max) of the two boxes. -/
def _aabb_union : Option (Vec3 × Vec3) → Option (Vec3 × Vec3) → Option (Vec3 × Vec3)
  | none, b => b
  | some a, none => some a
  | some a, some b => some (_min3 a.1 b.1, _max3 a.2 b.2)

/- ### material.py -/

/-- The `model` literal of `ElasticMaterial`. -/
inductive ElasticModel where
  | corotation : ElasticModel
  | neo_hookean : ElasticModel
  | stvk : ElasticModel
  deriving DecidableEq, Repr

/-- `ElasticMaterial` of `material.py` with its field defaults. -/
structure ElasticMaterial where
  E : ℚ := 100000
  nu : ℚ := 3 / 10
  rho : ℚ := 1000
  model : ElasticModel := .corotation
  deriving DecidableEq, Repr

/-- `ElasticMaterial._ranges`: the post-construction clamping validator. -/
def ElasticMaterial.ranges (m : ElasticMaterial) : ElasticMaterial :=
  { m with
    rho := _clip m.rho 100 10000,
    E := _clip m.E 10000 10000000000,
    nu := _clip m.nu 0 (49 / 100) }

/-- The `Material` union of `material.py`; the non-elastic variants carry
only their density `rho`. -/
inductive Material where
  | elastic (m : ElasticMaterial) : Material
  | snow (rho : ℚ) : Material
  | sand (rho : ℚ) : Material
  | liquid (rho : ℚ) : Material
  deriving DecidableEq, Repr

/-- The `_ranges` clamping validator of each material class:
Snow clamps `rho` to [50, 800], Sand to [1200, 2200],
Liquid to [800, 1300], Elastic as in `ElasticMaterial.ranges`. -/
def Material.ranges : Material → Material
  | .elastic m => .elastic m.ranges
  | .snow rho => .snow (_clip rho 50 800)
  | .sand rho => .sand (_clip rho 1200 2200)
  | .liquid rho => .liquid (_clip rho 800 1300)

/-- The `type` literal tag of each material class. -/
def Material.type : Material → String
  | .elastic _ => "Elastic"
  | .snow _ => "Snow"
  | .sand _ => "Sand"
  | .liquid _ => "Liquid"

/-- The density field of a material, across variants. -/
def Material.rho : Material → ℚ
  | .elastic m => m.rho
  | .snow rho => rho
  | .sand rho => rho
  | .liquid rho => rho

/- ### visual.py -/

/-- `_ALLOWED` of `visual.py`. -/
def _ALLOWED : List String :=
  ["visual", "collision", "particle", "sdf", "recon"]

/-- `Surface` of `visual.py`: a color and an optional `vis_mode`. -/
structure Surface where
  color : Vec3 := ⟨9 / 10, 9 / 10, 9 / 10⟩
  vis_mode : Option String := none
  deriving DecidableEq, Repr

/-- ASCII lowercasing of one character, as Python's `str.lower` acts on
the letters appearing in the source's mode names. -/
def lowerChar (c : Char) : Char :=
  if 65 ≤ c.toNat ∧ c.toNat ≤ 90 then Char.ofNat (c.toNat + 32) else c

/-- Python's `v.lower()` on a string, character by character. -/
def pyLower (s : String) : String :=
  ⟨s.data.map lowerChar⟩

/-- `Surface.normalize_vis_mode`: lowercase the string; keep it when in
`_ALLOWED`, else `None`. -/
def normalize_vis_mode : Option String → Option String
  | none => none
  | some v =>
      let vv := pyLower v
      if vv ∈ _ALLOWED then some vv else none

/-- Construction of a `Surface`, running the `vis_mode` field validator
`normalize_vis_mode`; it never fails. -/
def Surface.validated (color : Vec3) (vis : Option String) : Surface :=
  ⟨color, normalize_vis_mode vis⟩

/- ### error values -/

/-- A `raise ValueError` of the source. `domainViolation` carries the raw
domain corners, the effective (safety-shrunk) corners and the bodies'
union box, the data `_check_or_fit_domain` formats into its message;
`orderingViolation` carries the offending corner pair; `structuralViolation`
and `valueError` carry the message. -/
inductive ValidationError where
  | valueError (msg : String) : ValidationError
  | structuralViolation (msg : String) : ValidationError
  | orderingViolation (lb ub : Vec3) : ValidationError
  | domainViolation (raw_lb raw_ub eff_lb eff_ub bodies_lb bodies_ub : Vec3) : ValidationError
  deriving DecidableEq, Repr

/- ### scene.py -/

/-- `StaticObject` of `scene.py`: a name, a morph and a surface. -/
structure StaticObject where
  name : String
  morph : Morph
  surface : Surface
  deriving DecidableEq, Repr

/-- `StaticObject._default_and_guard_vis`: default an unset `vis_mode` to
`"visual"`, then reject `vis_mode == "particle"`. -/
def StaticObject.default_and_guard_vis (o : StaticObject) : Except ValidationError StaticObject :=
  let s := if o.surface.vis_mode = none
           then { o.surface with vis_mode := some "visual" }
           else o.surface
  if s.vis_mode = some "particle" then
    .error (.structuralViolation "Static or rigid objects cannot use vis_mode particle")
  else
    .ok { o with surface := s }

/-- Construction of a `StaticObject` from validated parts, running its
model validator. -/
def StaticObject.validated (name : String) (morph : Morph) (surface : Surface) :
    Except ValidationError StaticObject :=
  StaticObject.default_and_guard_vis ⟨name, morph, surface⟩

/-- `MPMBody` of `scene.py`: a name, a material, a morph and a surface. -/
structure MPMBody where
  name : String
  material : Material
  morph : Morph
  surface : Surface
  deriving DecidableEq, Repr

/-- `MPMBody._default_vis_for_mpm`: an unset `vis_mode` defaults to
`"recon"` when `material.type == "Elastic"`, else to `"particle"`. -/
def MPMBody.default_vis_for_mpm (b : MPMBody) : MPMBody :=
  if b.surface.vis_mode = none then
    { b with surface :=
        { b.surface with
          vis_mode := some (if b.material.type = "Elastic" then "recon" else "particle") } }
  else b

/- ### options.py -/

/-- `SimOptions` of `options.py` with its field defaults. -/
structure SimOptions where
  dt : ℚ := 1 / 1000
  substeps : ℤ := 10
  gravity : Vec3 := ⟨0, 0, -981 / 100⟩
  deriving DecidableEq, Repr

/-- `SimOptions._ranges`: clamp `dt` into [1e-5, 5e-3], `substeps` into
[1, 50], and rescale `gravity` by `50 / mag` when its Euclidean norm
`mag` exceeds 50. `mag` is the value of the source's float square root,
passed as a parameter. -/
def SimOptions.ranges (mag : ℚ) (o : SimOptions) : SimOptions :=
  let o1 := { o with
    dt := _clip o.dt (1 / 100000) (5 / 1000),
    substeps := _clip o.substeps 1 50 }
  if mag > 50 then
    { o1 with gravity :=
        ⟨o1.gravity.x * (50 / mag), o1.gravity.y * (50 / mag), o1.gravity.z * (50 / mag)⟩ }
  else o1

/-- Construction of `SimOptions`: the field validators `check_dt`
(rejects `dt <= 0 or dt > 0.1`) and `check_substeps` (rejects
`substeps < 1 or substeps > 10000`) run first, then `_ranges` clamps. -/
def SimOptions.validated (mag dt : ℚ) (substeps : ℤ) (gravity : Vec3) :
    Except ValidationError SimOptions :=
  if dt ≤ 0 ∨ dt > 1 / 10 then
    .error (.valueError "dt should be in (0, 0.1]")
  else if substeps < 1 ∨ substeps > 10000 then
    .error (.valueError "substeps must be >= 1 (and reasonably bounded)")
  else
    .ok (SimOptions.ranges mag ⟨dt, substeps, gravity⟩)

/-- `MPMOptions` of `options.py` with its field defaults. -/
structure MPMOptions where
  lower_bound : Vec3 := ⟨-1, -1, 0⟩
  upper_bound : Vec3 := ⟨1, 1, 3 / 2⟩
  grid_density : ℤ := 16
  deriving DecidableEq, Repr

/-- The per-axis swap of `MPMOptions._ranges`: coordinates with
`lb[i] > ub[i]` are exchanged. -/
def swapIfGt (a b : ℚ) : ℚ × ℚ :=
  if a > b then (b, a) else (a, b)

/-- The bounds-ordering repair of `MPMOptions._ranges`, applied on each
axis independently. -/
def orderBounds (lb ub : Vec3) : Vec3 × Vec3 :=
  let px := swapIfGt lb.x ub.x
  let py := swapIfGt lb.y ub.y
  let pz := swapIfGt lb.z ub.z
  (⟨px.1, py.1, pz.1⟩, ⟨px.2, py.2, pz.2⟩)

/-- `MPMOptions._ranges`: clamp `grid_density` into [16, 512] and swap
disordered bound coordinates. -/
def MPMOptions.ranges (o : MPMOptions) : MPMOptions :=
  let p := orderBounds o.lower_bound o.upper_bound
  ⟨p.1, p.2, _clip o.grid_density 16 512⟩

/-- Construction of `MPMOptions`: the field validator `check_res`
(rejects `grid_density < 8`) runs first, then `_ranges`. -/
def MPMOptions.validated (lb ub : Vec3) (gd : ℤ) : Except ValidationError MPMOptions :=
  if gd < 8 then
    .error (.valueError "grid_density too small")
  else
    .ok (MPMOptions.ranges ⟨lb, ub, gd⟩)

/-- `VisOptions` of `options.py`; it has no validators. -/
structure VisOptions where
  background_color : Vec3 := ⟨1, 1, 1⟩
  visualize_mpm_boundary : Bool := true
  deriving DecidableEq, Repr

/-- `ViewerOptions` of `options.py`; it has no validators. -/
structure ViewerOptions where
  camera_fov : ℚ := 35
  camera_pos : Vec3 := ⟨2, -2, 3 / 2⟩
  camera_lookat : Vec3 := ⟨0, 0, 1 / 2⟩
  deriving DecidableEq, Repr

/- ### config.py: the aggregate -/

/-- `GenesisConfig` of `config.py` with its field defaults; the nested
option blocks and body list hold already-validated values. -/
structure GenesisConfig where
  show_viewer : Bool := true
  steps : ℤ := 600
  max_bodies : ℤ := 8
  dump_particles : Bool := false
  sim_options : SimOptions := {}
  mpm_options : MPMOptions := {}
  vis_options : VisOptions := {}
  viewer_options : ViewerOptions := {}
  static : List StaticObject := []
  min_bodies : ℤ := 1
  mpm_bodies : List MPMBody := []
  auto_fit_bounds : Bool := true
  bounds_padding : ℚ := 3 / 20
  require_bodies_inside : Bool := true
  deriving DecidableEq, Repr

/-- The body-AABB accumulation loop of `_check_or_fit_domain` step 2:
fold `_aabb_union` over the morphs' AABBs, skipping `None`. -/
def bodiesAABB (bodies : List MPMBody) : Option (Vec3 × Vec3) :=
  bodies.foldl
    (fun acc b =>
      match b.morph.aabb with
      | none => acc
      | some ab => _aabb_union acc (some ab))
    none

/-- The safety margin of `_check_or_fit_domain` step 3:
`2 * (largest raw extent / max(1, grid_density))`. -/
def GenesisConfig.safetyMargin (c : GenesisConfig) : ℚ :=
  let lb := c.mpm_options.lower_bound
  let ub := c.mpm_options.upper_bound
  let largest := max (ub.x - lb.x) (max (ub.y - lb.y) (ub.z - lb.z))
  2 * (largest / ((max 1 c.mpm_options.grid_density : ℤ) : ℚ))

/-- The effective lower corner: raw lower corner plus the safety margin
on each axis. -/
def GenesisConfig.effLB (c : GenesisConfig) : Vec3 :=
  let lb := c.mpm_options.lower_bound
  let s := c.safetyMargin
  ⟨lb.x + s, lb.y + s, lb.z + s⟩

/-- The effective upper corner: raw upper corner minus the safety margin
on each axis. -/
def GenesisConfig.effUB (c : GenesisConfig) : Vec3 :=
  let ub := c.mpm_options.upper_bound
  let s := c.safetyMargin
  ⟨ub.x - s, ub.y - s, ub.z - s⟩

/-- The containment test of `_check_or_fit_domain` step 4: the bodies'
box `(bl, bu)` lies inside the effective domain, both corners, every
axis, non-strictly. -/
abbrev GenesisConfig.insideEff (c : GenesisConfig) (bl bu : Vec3) : Prop :=
  vle c.effLB bl ∧ vle bu c.effUB

/-- The padding of `_check_or_fit_domain` step 5:
`max(bounds_padding * diag, safety)`, where `d` is the value of the
float `math.dist(bl, bu)`. -/
def GenesisConfig.padOf (d : ℚ) (c : GenesisConfig) : ℚ :=
  max (c.bounds_padding * d) c.safetyMargin

/-- The domain growth of `_check_or_fit_domain` step 5: each new corner
is the more extreme of the raw corner and the body corner pushed out by
the padding. -/
def GenesisConfig.grow (d : ℚ) (c : GenesisConfig) (bl bu : Vec3) : GenesisConfig :=
  let lb := c.mpm_options.lower_bound
  let ub := c.mpm_options.upper_bound
  let pad := c.padOf d
  { c with mpm_options :=
      { c.mpm_options with
        lower_bound := ⟨min lb.x (bl.x - pad), min lb.y (bl.y - pad), min lb.z (bl.z - pad)⟩,
        upper_bound := ⟨max ub.x (bu.x + pad), max ub.y (bu.y + pad), max ub.z (bu.z + pad)⟩ } }

/-- `GenesisConfig._check_or_fit_domain`, with `d` the value of the float
`math.dist(bl, bu)` of step 5: reject a non-strict corner ordering;
accept untouched when no finite body box exists or the box fits in the
effective domain; otherwise grow when `auto_fit_bounds`, reject with the
diagnostic data when `require_bodies_inside`, and accept untouched
otherwise. -/
def GenesisConfig.check_or_fit_domain (d : ℚ) (c : GenesisConfig) :
    Except ValidationError GenesisConfig :=
  if ¬ vlt c.mpm_options.lower_bound c.mpm_options.upper_bound then
    .error (.orderingViolation c.mpm_options.lower_bound c.mpm_options.upper_bound)
  else
    match bodiesAABB c.mpm_bodies with
    | none => .ok c
    | some (bl, bu) =>
      if c.insideEff bl bu then
        .ok c
      else if c.auto_fit_bounds then
        .ok (c.grow d bl bu)
      else if c.require_bodies_inside then
        .error (.domainViolation c.mpm_options.lower_bound c.mpm_options.upper_bound
          c.effLB c.effUB bl bu)
      else
        .ok c

/-- The `steps` field validator `_steps_positive`: rejects `steps < 1`. -/
def GenesisConfig.steps_positive (c : GenesisConfig) : Except ValidationError GenesisConfig :=
  if c.steps < 1 then .error (.valueError "steps must be >= 1") else .ok c

/-- The model validator `_require_bodies`: rejects when `min_bodies > 0`
and fewer bodies are present. -/
def GenesisConfig.require_bodies (c : GenesisConfig) : Except ValidationError GenesisConfig :=
  if 0 < c.min_bodies ∧ (c.mpm_bodies.length : ℤ) < c.min_bodies then
    .error (.valueError "Expected at least min_bodies MPM bodies")
  else
    .ok c

/-- The `GenesisConfig` validation pass: the `steps` field validator,
then `_require_bodies`, then `_check_or_fit_domain`, in source order. -/
def GenesisConfig.validate (d : ℚ) (c : GenesisConfig) : Except ValidationError GenesisConfig :=
  match c.steps_positive with
  | .error e => .error e
  | .ok c1 =>
    match c1.require_bodies with
    | .error e => .error e
    | .ok c2 => c2.check_or_fit_domain d

/-- `d` is the Euclidean distance between `p` and `q`, the value of the
source's `math.dist(p, q)`. -/
def IsEuclidDist (d : ℚ) (p q : Vec3) : Prop :=
  0 ≤ d ∧ d * d = (p.x - q.x) ^ 2 + (p.y - q.y) ^ 2 + (p.z - q.z) ^ 2

/-- `m` is the Euclidean norm of `v`, the value of the source's
`math.sqrt(gx*gx + gy*gy + gz*gz)`. -/
def IsEuclidNorm (m : ℚ) (v : Vec3) : Prop :=
  0 ≤ m ∧ m * m = v.x ^ 2 + v.y ^ 2 + v.z ^ 2

deriving instance DecidableEq for Except

/-- An optional AABB that is present and has its minimum corner at most
its maximum corner on every axis. -/
def orderedPair : Option (Vec3 × Vec3) → Prop
  | none => False
  | some (lo, hi) => vle lo hi

/-- Whether a validation outcome is the corner-ordering rejection. -/
def isOrderingError : Except ValidationError GenesisConfig → Bool
  | .error (.orderingViolation _ _) => true
  | _ => false

/-- A dynamic body whose box AABB is ((0,-1/2,-1/2), (1,3/2,3/2)):
corner difference (1, 2, 2), so its diagonal is exactly 3. -/
def bodyDiag3 : MPMBody :=
  ⟨"body", .liquid 1000, .box ⟨1/2, 1/2, 1/2⟩ ⟨1, 2, 2⟩,
   ⟨⟨9/10, 9/10, 9/10⟩, some "particle"⟩⟩

/-- A configuration whose domain corners agree on the x axis. -/
def cfgEqualAxis : GenesisConfig :=
  { mpm_options := ⟨⟨0, 0, 0⟩, ⟨0, 1, 1⟩, 16⟩, mpm_bodies := [bodyDiag3] }

/-- A configuration with auto-fit and the containment requirement both
disabled, whose body lies outside the effective domain. -/
def cfgOutside : GenesisConfig :=
  { mpm_options := ⟨⟨0, 0, 0⟩, ⟨1, 1, 1⟩, 16⟩, mpm_bodies := [bodyDiag3],
    auto_fit_bounds := false, require_bodies_inside := false }

/-- `cfgOutside` with the containment requirement back at its default. -/
def cfgOutsideReq : GenesisConfig :=
  { cfgOutside with require_bodies_inside := true }

/-- A configuration with swapped x corners and no bodies. -/
def cfgSwapped : GenesisConfig :=
  { mpm_options := MPMOptions.ranges ⟨⟨1, 0, 0⟩, ⟨0, 1, 1⟩, 16⟩, min_bodies := 0 }

/-- A dynamic body whose box AABB is ((1/5,1/5,1/5), (6/5,11/5,11/5)):
corner difference (1, 2, 2), so its diagonal is exactly 3. -/
def bodyTall : MPMBody :=
  ⟨"body", .liquid 1000, .box ⟨7/10, 6/5, 6/5⟩ ⟨1, 2, 2⟩,
   ⟨⟨9/10, 9/10, 9/10⟩, some "particle"⟩⟩

/-- Auto-fit enabled with `bounds_padding = 0` on a unit domain holding
`bodyTall`: the pad collapses to the old safety margin, while growth
enlarges the largest extent, hence the recomputed margin. -/
def cfgPadZero : GenesisConfig :=
  { mpm_options := ⟨⟨0, 0, 0⟩, ⟨1, 1, 1⟩, 16⟩, mpm_bodies := [bodyTall],
    bounds_padding := 0 }

/-- The output of the first validation pass on `cfgPadZero`. -/
def cfgPadZeroFit : GenesisConfig :=
  { cfgPadZero with mpm_options := ⟨⟨0, 0, 0⟩, ⟨53/40, 93/40, 93/40⟩, 16⟩ }

/-- The output of the second validation pass, on `cfgPadZeroFit`: the
domain grows a second time. -/
def cfgPadZeroFit2 : GenesisConfig :=
  { cfgPadZero with mpm_options :=
      ⟨⟨-29/320, -29/320, -29/320⟩, ⟨477/320, 797/320, 797/320⟩, 16⟩ }

/-- The `cfgPadZero` scene with the default padding fraction 0.15. -/
def cfgPadDefault : GenesisConfig :=
  { mpm_options := ⟨⟨0, 0, 0⟩, ⟨1, 1, 1⟩, 16⟩, mpm_bodies := [bodyTall] }

/-- The output of the first validation pass on `cfgPadDefault`. -/
def cfgPadDefaultFit : GenesisConfig :=
  { cfgPadDefault with mpm_options := ⟨⟨-1/4, -1/4, -1/4⟩, ⟨33/20, 53/20, 53/20⟩, 16⟩ }

/-- A valid configuration with no dynamic bodies. -/
def cfgNoBodies : GenesisConfig :=
  { min_bodies := 0 }

/-- A clamp with ordered endpoints lands in the closed interval. -/
lemma clip_mem {α : Type} [LinearOrder α] (x lo hi : α) (h : lo ≤ hi) :
    lo ≤ _clip x lo hi ∧ _clip x lo hi ≤ hi :=
  ⟨le_max_left _ _, max_le h (min_le_left _ _)⟩

/-- C5: for every Box and every Sphere with any finite parameters, the
AABB exists and has every minimum-corner coordinate at most the matching
maximum-corner coordinate; the sphere's AABB is center ± |radius| on
each axis. -/
theorem box_sphere_aabb_ordered (p s q : Vec3) (r : ℚ) :
    orderedPair (Morph.box p s).aabb ∧
    (Morph.sphere q r).aabb =
      some (⟨q.x - |r|, q.y - |r|, q.z - |r|⟩, ⟨q.x + |r|, q.y + |r|, q.z + |r|⟩) ∧
    orderedPair (Morph.sphere q r).aabb := by
  refine ⟨?_, rfl, ?_⟩ <;> simp only [Morph.aabb, orderedPair, vle] <;>
    refine ⟨?_, ?_, ?_⟩ <;>
    nlinarith [abs_nonneg s.x, abs_nonneg s.y, abs_nonneg s.z, abs_nonneg r]

/-- C6: a Plane's AABB is none, and none is a two-sided identity of the
AABB union. -/
theorem plane_aabb_none_union_id (b : Vec3 × Vec3) :
    Morph.plane.aabb = none ∧
    _aabb_union none (some b) = some b ∧
    _aabb_union (some b) none = some b :=
  ⟨rfl, rfl, rfl⟩

/-- C7: for every material variant and every finite input, the clamping
step puts the density in the variant's closed interval and, for Elastic,
the modulus and the Poisson ratio in theirs, the ratio's upper end lying
strictly below 1/2; clamping is total, so construction never fails. -/
theorem material_clamp_in_range (m : ElasticMaterial) (r1 r2 r3 : ℚ) :
    (100 ≤ (Material.elastic m).ranges.rho ∧ (Material.elastic m).ranges.rho ≤ 10000) ∧
    (10000 ≤ m.ranges.E ∧ m.ranges.E ≤ 10000000000) ∧
    (0 ≤ m.ranges.nu ∧ m.ranges.nu ≤ 49 / 100) ∧ (49 / 100 : ℚ) < 1 / 2 ∧
    (50 ≤ (Material.snow r1).ranges.rho ∧ (Material.snow r1).ranges.rho ≤ 800) ∧
    (1200 ≤ (Material.sand r2).ranges.rho ∧ (Material.sand r2).ranges.rho ≤ 2200) ∧
    (800 ≤ (Material.liquid r3).ranges.rho ∧ (Material.liquid r3).ranges.rho ≤ 1300) := by
  refine ⟨?_, ?_, ?_, by norm_num, ?_, ?_, ?_⟩ <;>
    simp only [Material.ranges, Material.rho, ElasticMaterial.ranges] <;>
    exact clip_mem _ _ _ (by norm_num)

/-- C8: a static object whose render mode is explicitly set to
"particle" always fails validation with a structural violation, whatever
its shape and color. -/
theorem static_particle_rejected (name : String) (morph : Morph) (color : Vec3) :
    StaticObject.validated name morph (Surface.validated color (some "particle")) =
      .error (.structuralViolation "Static or rigid objects cannot use vis_mode particle") :=
  rfl

/-- C9: render-mode defaults when left unset: a static object gets
"visual"; a dynamic body gets "recon" for an Elastic material and
"particle" for Snow, Sand and Liquid. -/
theorem default_vis_modes (name : String) (morph : Morph) (color : Vec3)
    (em : ElasticMaterial) (r1 r2 r3 : ℚ) :
    StaticObject.validated name morph (Surface.validated color none) =
      .ok ⟨name, morph, ⟨color, some "visual"⟩⟩ ∧
    (MPMBody.default_vis_for_mpm ⟨name, .elastic em, morph, ⟨color, none⟩⟩).surface.vis_mode =
      some "recon" ∧
    (MPMBody.default_vis_for_mpm ⟨name, .snow r1, morph, ⟨color, none⟩⟩).surface.vis_mode =
      some "particle" ∧
    (MPMBody.default_vis_for_mpm ⟨name, .sand r2, morph, ⟨color, none⟩⟩).surface.vis_mode =
      some "particle" ∧
    (MPMBody.default_vis_for_mpm ⟨name, .liquid r3, morph, ⟨color, none⟩⟩).surface.vis_mode =
      some "particle" :=
  ⟨rfl, rfl, rfl, rfl, rfl⟩

/-- The dt clamp of `SimOptions._ranges`, independent of the gravity
branch. -/
lemma sim_ranges_dt (mag : ℚ) (o : SimOptions) :
    (SimOptions.ranges mag o).dt = _clip o.dt (1 / 100000) (5 / 1000) := by
  simp only [SimOptions.ranges]
  split <;> rfl

/-- The substep clamp of `SimOptions._ranges`, independent of the
gravity branch. -/
lemma sim_ranges_substeps (mag : ℚ) (o : SimOptions) :
    (SimOptions.ranges mag o).substeps = _clip o.substeps 1 50 := by
  simp only [SimOptions.ranges]
  split <;> rfl

/-- The grid-density clamp of `MPMOptions._ranges`. -/
lemma mpm_ranges_gd (o : MPMOptions) :
    (MPMOptions.ranges o).grid_density = _clip o.grid_density 16 512 :=
  rfl

/-- C2 counterexample: the field-level stage does reject; `dt = 1/5` is
a finite value that `check_dt` refuses, so construction of `SimOptions`
fails rather than clamping. -/
theorem sim_options_reject_finite_dt :
    SimOptions.validated 0 (1/5) 10 ⟨0, 0, 0⟩ =
      .error (.valueError "dt should be in (0, 0.1]") ∧
    IsEuclidNorm 0 ⟨0, 0, 0⟩ := by
  constructor
  · norm_num [SimOptions.validated]
  · constructor <;> norm_num [IsEuclidNorm]

/-- C2 amended: inputs inside the field validators' gates
(`0 < dt ≤ 0.1`, `1 ≤ substeps ≤ 10000`, `grid_density ≥ 8`) are never
rejected; construction succeeds and the clamps land `dt` in
[1e-5, 5e-3], `substeps` in [1, 50] and `grid_density` in [16, 512]. -/
theorem options_gates_then_clamp (mag dt : ℚ) (s gd : ℤ) (g lb ub : Vec3)
    (h1 : 0 < dt) (h2 : dt ≤ 1 / 10) (h3 : 1 ≤ s) (h4 : s ≤ 10000) (h5 : 8 ≤ gd) :
    SimOptions.validated mag dt s g = .ok (SimOptions.ranges mag ⟨dt, s, g⟩) ∧
    1 / 100000 ≤ (SimOptions.ranges mag ⟨dt, s, g⟩).dt ∧
    (SimOptions.ranges mag ⟨dt, s, g⟩).dt ≤ 5 / 1000 ∧
    1 ≤ (SimOptions.ranges mag ⟨dt, s, g⟩).substeps ∧
    (SimOptions.ranges mag ⟨dt, s, g⟩).substeps ≤ 50 ∧
    MPMOptions.validated lb ub gd = .ok (MPMOptions.ranges ⟨lb, ub, gd⟩) ∧
    16 ≤ (MPMOptions.ranges ⟨lb, ub, gd⟩).grid_density ∧
    (MPMOptions.ranges ⟨lb, ub, gd⟩).grid_density ≤ 512 := by
  have hd : ¬ (dt ≤ 0 ∨ dt > 1 / 10) := by push_neg; exact ⟨h1, h2⟩
  have hs : ¬ (s < 1 ∨ s > 10000) := by push_neg; exact ⟨h3, h4⟩
  have hg : ¬ gd < 8 := not_lt.mpr h5
  refine ⟨?_, ?_, ?_, ?_, ?_, ?_, ?_, ?_⟩
  · simp only [SimOptions.validated, if_neg hd, if_neg hs]
  · rw [sim_ranges_dt]; exact (clip_mem _ _ _ (by norm_num)).1
  · rw [sim_ranges_dt]; exact (clip_mem _ _ _ (by norm_num)).2
  · rw [sim_ranges_substeps]; exact (clip_mem _ _ _ (by norm_num)).1
  · rw [sim_ranges_substeps]; exact (clip_mem _ _ _ (by norm_num)).2
  · simp only [MPMOptions.validated, if_neg hg]
  · rw [mpm_ranges_gd]; exact (clip_mem _ _ _ (by norm_num)).1
  · rw [mpm_ranges_gd]; exact (clip_mem _ _ _ (by norm_num)).2

/-- C2 witness: the amended statement at a concrete in-gate input. -/
theorem options_gates_then_clamp_witness :
    SimOptions.validated 0 (1/100) 10 ⟨0, 0, 0⟩ =
      .ok (SimOptions.ranges 0 ⟨1/100, 10, ⟨0, 0, 0⟩⟩) ∧
    1 / 100000 ≤ (SimOptions.ranges 0 ⟨1/100, 10, ⟨0, 0, 0⟩⟩).dt ∧
    (SimOptions.ranges 0 ⟨1/100, 10, ⟨0, 0, 0⟩⟩).dt ≤ 5 / 1000 ∧
    1 ≤ (SimOptions.ranges 0 ⟨1/100, 10, ⟨0, 0, 0⟩⟩).substeps ∧
    (SimOptions.ranges 0 ⟨1/100, 10, ⟨0, 0, 0⟩⟩).substeps ≤ 50 ∧
    MPMOptions.validated ⟨0, 0, 0⟩ ⟨1, 1, 1⟩ 8 =
      .ok (MPMOptions.ranges ⟨⟨0, 0, 0⟩, ⟨1, 1, 1⟩, 8⟩) ∧
    16 ≤ (MPMOptions.ranges ⟨⟨0, 0, 0⟩, ⟨1, 1, 1⟩, 8⟩).grid_density ∧
    (MPMOptions.ranges ⟨⟨0, 0, 0⟩, ⟨1, 1, 1⟩, 8⟩).grid_density ≤ 512 :=
  options_gates_then_clamp 0 (1/100) 10 8 ⟨0, 0, 0⟩ ⟨0, 0, 0⟩ ⟨1, 1, 1⟩
    (by norm_num) (by norm_num) (by norm_num) (by norm_num) (by norm_num)

/-- The per-axis swap yields an ordered pair. -/
lemma swapIfGt_le (a b : ℚ) : (swapIfGt a b).1 ≤ (swapIfGt a b).2 := by
  unfold swapIfGt
  split_ifs with h
  · exact h.le
  · exact not_lt.mp h

/-- With distinct endpoints, the per-axis swap yields a strictly ordered
pair. -/
lemma swapIfGt_lt (a b : ℚ) (hne : a ≠ b) : (swapIfGt a b).1 < (swapIfGt a b).2 := by
  unfold swapIfGt
  split_ifs with h
  · exact h
  · exact lt_of_le_of_ne (not_lt.mp h) hne

/-- C3 counterexample: corners agreeing on the x axis violate the strict
ordering invariant, the swap stage leaves them untouched, and the
aggregate pass then rejects — so a violated ordering can cause a
rejection. -/
theorem equal_axis_ordering_rejected :
    MPMOptions.validated ⟨0, 0, 0⟩ ⟨0, 1, 1⟩ 16 = .ok ⟨⟨0, 0, 0⟩, ⟨0, 1, 1⟩, 16⟩ ∧
    GenesisConfig.validate 3 cfgEqualAxis =
      .error (.orderingViolation ⟨0, 0, 0⟩ ⟨0, 1, 1⟩) ∧
    IsEuclidDist 3 ⟨0, -1/2, -1/2⟩ ⟨1, 3/2, 3/2⟩ := by
  refine ⟨?_, ?_, ?_⟩
  · norm_num [MPMOptions.validated, MPMOptions.ranges, orderBounds, swapIfGt, _clip]
  · norm_num [GenesisConfig.validate, GenesisConfig.steps_positive,
      GenesisConfig.require_bodies, GenesisConfig.check_or_fit_domain, cfgEqualAxis, vlt]
  · constructor <;> norm_num [IsEuclidDist]

/-- C3 amended: the swap stage repairs strictly reversed coordinates
(always producing componentwise ≤, and strict order when no two
corresponding coordinates are equal), and on such corners the
aggregate's ordering check never fires; only coordinate equality, which
swapping cannot repair, is rejected. -/
theorem bounds_swap_repairs_distinct (lb ub : Vec3) (gd : ℤ) (d : ℚ) (c : GenesisConfig)
    (h8 : 8 ≤ gd) (hx : lb.x ≠ ub.x) (hy : lb.y ≠ ub.y) (hz : lb.z ≠ ub.z)
    (hc : c.mpm_options = MPMOptions.ranges ⟨lb, ub, gd⟩) :
    MPMOptions.validated lb ub gd = .ok (MPMOptions.ranges ⟨lb, ub, gd⟩) ∧
    vle (MPMOptions.ranges ⟨lb, ub, gd⟩).lower_bound
      (MPMOptions.ranges ⟨lb, ub, gd⟩).upper_bound ∧
    vlt (MPMOptions.ranges ⟨lb, ub, gd⟩).lower_bound
      (MPMOptions.ranges ⟨lb, ub, gd⟩).upper_bound ∧
    isOrderingError (c.check_or_fit_domain d) = false := by
  have hvlt : vlt (MPMOptions.ranges ⟨lb, ub, gd⟩).lower_bound
      (MPMOptions.ranges ⟨lb, ub, gd⟩).upper_bound :=
    ⟨swapIfGt_lt lb.x ub.x hx, swapIfGt_lt lb.y ub.y hy, swapIfGt_lt lb.z ub.z hz⟩
  refine ⟨?_, ⟨swapIfGt_le lb.x ub.x, swapIfGt_le lb.y ub.y, swapIfGt_le lb.z ub.z⟩, hvlt, ?_⟩
  · simp only [MPMOptions.validated, if_neg (not_lt.mpr h8)]
  · unfold GenesisConfig.check_or_fit_domain
    rw [hc, if_neg (not_not_intro hvlt)]
    split
    · rfl
    · split_ifs <;> rfl

/-- C3 witness: the amended statement at concrete reversed-x corners. -/
theorem bounds_swap_repairs_witness :
    MPMOptions.validated ⟨1, 0, 0⟩ ⟨0, 1, 1⟩ 16 =
      .ok (MPMOptions.ranges ⟨⟨1, 0, 0⟩, ⟨0, 1, 1⟩, 16⟩) ∧
    vle (MPMOptions.ranges ⟨⟨1, 0, 0⟩, ⟨0, 1, 1⟩, 16⟩).lower_bound
      (MPMOptions.ranges ⟨⟨1, 0, 0⟩, ⟨0, 1, 1⟩, 16⟩).upper_bound ∧
    vlt (MPMOptions.ranges ⟨⟨1, 0, 0⟩, ⟨0, 1, 1⟩, 16⟩).lower_bound
      (MPMOptions.ranges ⟨⟨1, 0, 0⟩, ⟨0, 1, 1⟩, 16⟩).upper_bound ∧
    isOrderingError (cfgSwapped.check_or_fit_domain 0) = false :=
  bounds_swap_repairs_distinct ⟨1, 0, 0⟩ ⟨0, 1, 1⟩ 16 0 cfgSwapped
    (by norm_num) (by norm_num) (by norm_num) (by norm_num) rfl

/-- The AABB of the shared counterexample body `bodyDiag3`. -/
lemma bodyDiag3_aabb :
    bodyDiag3.morph.aabb = some (⟨0, -1/2, -1/2⟩, ⟨1, 3/2, 3/2⟩) := by
  norm_num [bodyDiag3, Morph.aabb, abs_of_pos]

/-- The AABB of the shared counterexample body `bodyTall`. -/
lemma bodyTall_aabb :
    bodyTall.morph.aabb = some (⟨1/5, 1/5, 1/5⟩, ⟨6/5, 11/5, 11/5⟩) := by
  norm_num [bodyTall, Morph.aabb, abs_of_pos]

/-- The bodies' union box of a scene holding just `bodyDiag3`. -/
lemma bodiesAABB_diag3 :
    bodiesAABB [bodyDiag3] = some (⟨0, -1/2, -1/2⟩, ⟨1, 3/2, 3/2⟩) := by
  simp [bodiesAABB, bodyDiag3_aabb, _aabb_union]

/-- C4 counterexample: with auto-fit disabled but `require_bodies_inside`
also disabled, a configuration whose body lies outside the effective
domain is silently accepted, unchanged — no rejection occurs. -/
theorem outside_domain_silently_accepted :
    GenesisConfig.validate 3 cfgOutside = .ok cfgOutside ∧
    cfgOutside.auto_fit_bounds = false ∧
    bodiesAABB cfgOutside.mpm_bodies = some (⟨0, -1/2, -1/2⟩, ⟨1, 3/2, 3/2⟩) ∧
    ¬ cfgOutside.insideEff ⟨0, -1/2, -1/2⟩ ⟨1, 3/2, 3/2⟩ ∧
    IsEuclidDist 3 ⟨0, -1/2, -1/2⟩ ⟨1, 3/2, 3/2⟩ := by
  refine ⟨?_, rfl, by exact bodiesAABB_diag3, ?_, ?_⟩
  · norm_num [GenesisConfig.validate, GenesisConfig.steps_positive,
      GenesisConfig.require_bodies, GenesisConfig.check_or_fit_domain,
      bodiesAABB_diag3, GenesisConfig.insideEff, GenesisConfig.effLB,
      GenesisConfig.effUB, GenesisConfig.safetyMargin, vle, vlt, cfgOutside]
  · norm_num [GenesisConfig.insideEff, GenesisConfig.effLB, GenesisConfig.effUB,
      GenesisConfig.safetyMargin, vle, cfgOutside]
  · constructor <;> norm_num [IsEuclidDist]

/-- C4 amended: when auto-fit is disabled AND `require_bodies_inside` is
enabled (its default), a body box outside the effective domain makes the
pass reject with the domain violation carrying the raw corners, the
effective corners and the bodies' union box. -/
theorem domain_violation_rejects (d : ℚ) (c : GenesisConfig) (bl bu : Vec3)
    (hsteps : ¬ c.steps < 1)
    (hmin : ¬ (0 < c.min_bodies ∧ (c.mpm_bodies.length : ℤ) < c.min_bodies))
    (hord : vlt c.mpm_options.lower_bound c.mpm_options.upper_bound)
    (hbod : bodiesAABB c.mpm_bodies = some (bl, bu))
    (hout : ¬ c.insideEff bl bu)
    (hfit : c.auto_fit_bounds = false)
    (hreq : c.require_bodies_inside = true) :
    GenesisConfig.validate d c =
      .error (.domainViolation c.mpm_options.lower_bound c.mpm_options.upper_bound
        c.effLB c.effUB bl bu) := by
  simp only [GenesisConfig.validate, GenesisConfig.steps_positive,
    GenesisConfig.require_bodies, if_neg hsteps, if_neg hmin]
  unfold GenesisConfig.check_or_fit_domain
  rw [if_neg (not_not_intro hord)]
  simp only [hbod, if_neg hout, hfit, hreq]
  simp

/-- C4 witness: the amended statement on the concrete scene
`cfgOutsideReq`. -/
theorem domain_violation_rejects_witness :
    GenesisConfig.validate 3 cfgOutsideReq =
      .error (.domainViolation cfgOutsideReq.mpm_options.lower_bound
        cfgOutsideReq.mpm_options.upper_bound cfgOutsideReq.effLB cfgOutsideReq.effUB
        ⟨0, -1/2, -1/2⟩ ⟨1, 3/2, 3/2⟩) :=
  domain_violation_rejects 3 cfgOutsideReq ⟨0, -1/2, -1/2⟩ ⟨1, 3/2, 3/2⟩
    (by norm_num [cfgOutsideReq, cfgOutside])
    (by norm_num [cfgOutsideReq, cfgOutside])
    (by norm_num [cfgOutsideReq, cfgOutside, vlt])
    (by exact bodiesAABB_diag3)
    (by norm_num [GenesisConfig.insideEff, GenesisConfig.effLB, GenesisConfig.effUB,
      GenesisConfig.safetyMargin, vle, cfgOutsideReq, cfgOutside])
    rfl rfl

/-- Splitting a successful validation pass into its three stages. -/
lemma validate_ok_elim (d : ℚ) (c c' : GenesisConfig)
    (h : GenesisConfig.validate d c = .ok c') :
    ¬ c.steps < 1 ∧ ¬ (0 < c.min_bodies ∧ (c.mpm_bodies.length : ℤ) < c.min_bodies) ∧
    c.check_or_fit_domain d = .ok c' := by
  by_cases h1 : c.steps < 1
  · simp [GenesisConfig.validate, GenesisConfig.steps_positive, h1] at h
  · by_cases h2 : 0 < c.min_bodies ∧ (c.mpm_bodies.length : ℤ) < c.min_bodies
    · simp [GenesisConfig.validate, GenesisConfig.steps_positive,
        GenesisConfig.require_bodies, h1, h2] at h
    · refine ⟨h1, h2, ?_⟩
      simpa [GenesisConfig.validate, GenesisConfig.steps_positive,
        GenesisConfig.require_bodies, h1, h2] using h

/-- A validation pass whose two guard stages hold reduces to the domain
stage. -/
lemma validate_eq_fit (d : ℚ) (c : GenesisConfig)
    (h1 : ¬ c.steps < 1)
    (h2 : ¬ (0 < c.min_bodies ∧ (c.mpm_bodies.length : ℤ) < c.min_bodies)) :
    GenesisConfig.validate d c = c.check_or_fit_domain d := by
  simp [GenesisConfig.validate, GenesisConfig.steps_positive,
    GenesisConfig.require_bodies, h1, h2]

/-- Shape analysis of a successful domain stage: either the
configuration is returned untouched, or auto-fit grew the domain. -/
lemma fit_ok_cases (d : ℚ) (c c' : GenesisConfig)
    (h : c.check_or_fit_domain d = .ok c') :
    c' = c ∨
    ∃ bl bu, bodiesAABB c.mpm_bodies = some (bl, bu) ∧
      vlt c.mpm_options.lower_bound c.mpm_options.upper_bound ∧
      ¬ c.insideEff bl bu ∧ c.auto_fit_bounds = true ∧ c' = c.grow d bl bu := by
  unfold GenesisConfig.check_or_fit_domain at h
  by_cases hord : vlt c.mpm_options.lower_bound c.mpm_options.upper_bound
  · rw [if_neg (not_not_intro hord)] at h
    rcases hb : bodiesAABB c.mpm_bodies with _ | ⟨bl, bu⟩
    · simp only [hb] at h
      left
      exact (Except.ok.inj h).symm
    · simp only [hb] at h
      by_cases hin : c.insideEff bl bu
      · rw [if_pos hin] at h
        left
        exact (Except.ok.inj h).symm
      · rw [if_neg hin] at h
        by_cases hfit : c.auto_fit_bounds
        · right
          rw [if_pos hfit] at h
          exact ⟨bl, bu, rfl, hord, hin, hfit, (Except.ok.inj h).symm⟩
        · rw [if_neg hfit] at h
          by_cases hreq : c.require_bodies_inside
          · rw [if_pos hreq] at h
            exact absurd h (by simp)
          · rw [if_neg hreq] at h
            left
            exact (Except.ok.inj h).symm
  · rw [if_pos hord] at h
    exact absurd h (by simp)

/-- The grown lower corner, explicitly. -/
lemma grow_lower (d : ℚ) (c : GenesisConfig) (bl bu : Vec3) :
    (c.grow d bl bu).mpm_options.lower_bound =
      ⟨min c.mpm_options.lower_bound.x (bl.x - c.padOf d),
       min c.mpm_options.lower_bound.y (bl.y - c.padOf d),
       min c.mpm_options.lower_bound.z (bl.z - c.padOf d)⟩ :=
  rfl

/-- The grown upper corner, explicitly. -/
lemma grow_upper (d : ℚ) (c : GenesisConfig) (bl bu : Vec3) :
    (c.grow d bl bu).mpm_options.upper_bound =
      ⟨max c.mpm_options.upper_bound.x (bu.x + c.padOf d),
       max c.mpm_options.upper_bound.y (bu.y + c.padOf d),
       max c.mpm_options.upper_bound.z (bu.z + c.padOf d)⟩ :=
  rfl

/-- C10: a successful validation pass only ever moves the domain's lower
corner down and its upper corner up, and leaves every other field of the
configuration (and the grid density) unchanged. -/
theorem autofit_only_grows_frame (d : ℚ) (c c' : GenesisConfig)
    (h : GenesisConfig.validate d c = .ok c') :
    vle c'.mpm_options.lower_bound c.mpm_options.lower_bound ∧
    vle c.mpm_options.upper_bound c'.mpm_options.upper_bound ∧
    c'.mpm_options.grid_density = c.mpm_options.grid_density ∧
    c'.show_viewer = c.show_viewer ∧ c'.steps = c.steps ∧
    c'.max_bodies = c.max_bodies ∧ c'.dump_particles = c.dump_particles ∧
    c'.sim_options = c.sim_options ∧ c'.vis_options = c.vis_options ∧
    c'.viewer_options = c.viewer_options ∧ c'.static = c.static ∧
    c'.min_bodies = c.min_bodies ∧ c'.mpm_bodies = c.mpm_bodies ∧
    c'.auto_fit_bounds = c.auto_fit_bounds ∧
    c'.bounds_padding = c.bounds_padding ∧
    c'.require_bodies_inside = c.require_bodies_inside := by
  obtain ⟨-, -, hfit⟩ := validate_ok_elim d c c' h
  rcases fit_ok_cases d c c' hfit with rfl | ⟨bl, bu, -, -, -, -, rfl⟩
  · exact ⟨⟨le_refl _, le_refl _, le_refl _⟩, ⟨le_refl _, le_refl _, le_refl _⟩,
      rfl, rfl, rfl, rfl, rfl, rfl, rfl, rfl, rfl, rfl, rfl, rfl, rfl, rfl⟩
  · refine ⟨?_, ?_, rfl, rfl, rfl, rfl, rfl, rfl, rfl, rfl, rfl, rfl, rfl, rfl, rfl, rfl⟩
    · rw [grow_lower]
      exact ⟨min_le_left _ _, min_le_left _ _, min_le_left _ _⟩
    · rw [grow_upper]
      exact ⟨le_max_left _ _, le_max_left _ _, le_max_left _ _⟩

/-- C10 witness: the frame statement on the concrete scene
`cfgNoBodies`. -/
theorem autofit_only_grows_frame_witness :
    vle cfgNoBodies.mpm_options.lower_bound cfgNoBodies.mpm_options.lower_bound ∧
    vle cfgNoBodies.mpm_options.upper_bound cfgNoBodies.mpm_options.upper_bound ∧
    cfgNoBodies.mpm_options.grid_density = cfgNoBodies.mpm_options.grid_density ∧
    cfgNoBodies.show_viewer = cfgNoBodies.show_viewer ∧
    cfgNoBodies.steps = cfgNoBodies.steps ∧
    cfgNoBodies.max_bodies = cfgNoBodies.max_bodies ∧
    cfgNoBodies.dump_particles = cfgNoBodies.dump_particles ∧
    cfgNoBodies.sim_options = cfgNoBodies.sim_options ∧
    cfgNoBodies.vis_options = cfgNoBodies.vis_options ∧
    cfgNoBodies.viewer_options = cfgNoBodies.viewer_options ∧
    cfgNoBodies.static = cfgNoBodies.static ∧
    cfgNoBodies.min_bodies = cfgNoBodies.min_bodies ∧
    cfgNoBodies.mpm_bodies = cfgNoBodies.mpm_bodies ∧
    cfgNoBodies.auto_fit_bounds = cfgNoBodies.auto_fit_bounds ∧
    cfgNoBodies.bounds_padding = cfgNoBodies.bounds_padding ∧
    cfgNoBodies.require_bodies_inside = cfgNoBodies.require_bodies_inside :=
  autofit_only_grows_frame 0 cfgNoBodies cfgNoBodies
    (by norm_num [GenesisConfig.validate, GenesisConfig.steps_positive,
      GenesisConfig.require_bodies, GenesisConfig.check_or_fit_domain,
      bodiesAABB, cfgNoBodies, vlt])

/-- The bodies' union box of a scene holding just `bodyTall`. -/
lemma bodiesAABB_tall :
    bodiesAABB [bodyTall] = some (⟨1/5, 1/5, 1/5⟩, ⟨6/5, 11/5, 11/5⟩) := by
  simp [bodiesAABB, bodyTall_aabb, _aabb_union]

/-- C1 counterexample: with auto-fit enabled and `bounds_padding = 0`,
the first pass succeeds and grows the domain, yet the second pass grows
it again — the safety shrink recomputed on the grown (larger) domain no
longer fits behind the applied padding, so one growth pass is not a
fixed point. -/
theorem autofit_second_pass_grows_again :
    GenesisConfig.validate 3 cfgPadZero = .ok cfgPadZeroFit ∧
    GenesisConfig.validate 3 cfgPadZeroFit = .ok cfgPadZeroFit2 ∧
    cfgPadZeroFit2.mpm_options.lower_bound ≠ cfgPadZeroFit.mpm_options.lower_bound ∧
    cfgPadZeroFit2.mpm_options.upper_bound ≠ cfgPadZeroFit.mpm_options.upper_bound ∧
    cfgPadZero.auto_fit_bounds = true ∧
    bodiesAABB cfgPadZero.mpm_bodies = some (⟨1/5, 1/5, 1/5⟩, ⟨6/5, 11/5, 11/5⟩) ∧
    IsEuclidDist 3 ⟨1/5, 1/5, 1/5⟩ ⟨6/5, 11/5, 11/5⟩ := by
  refine ⟨?_, ?_, ?_, ?_, rfl, by exact bodiesAABB_tall, ?_⟩
  · norm_num [GenesisConfig.validate, GenesisConfig.steps_positive,
      GenesisConfig.require_bodies, GenesisConfig.check_or_fit_domain,
      bodiesAABB_tall, GenesisConfig.insideEff, GenesisConfig.effLB,
      GenesisConfig.effUB, GenesisConfig.safetyMargin, GenesisConfig.grow,
      GenesisConfig.padOf, vle, vlt, cfgPadZero, cfgPadZeroFit, min_def, max_def]
  · norm_num [GenesisConfig.validate, GenesisConfig.steps_positive,
      GenesisConfig.require_bodies, GenesisConfig.check_or_fit_domain,
      bodiesAABB_tall, GenesisConfig.insideEff, GenesisConfig.effLB,
      GenesisConfig.effUB, GenesisConfig.safetyMargin, GenesisConfig.grow,
      GenesisConfig.padOf, vle, vlt, cfgPadZero, cfgPadZeroFit, cfgPadZeroFit2,
      min_def, max_def]
  · norm_num [cfgPadZeroFit, cfgPadZeroFit2]
  · norm_num [cfgPadZeroFit, cfgPadZeroFit2]
  · constructor <;> norm_num [IsEuclidDist]

/-- C1 amended: a successful pass is a fixed point of the validator
whenever the safety margin recomputed on its output does not exceed the
padding the pass had available: `validate` applied to its own output
returns it unchanged. This holds in particular when no growth occurred,
and can fail otherwise (see the `bounds_padding = 0` scene). -/
theorem autofit_fixed_point_of_safety_le_pad (d : ℚ) (c c' : GenesisConfig)
    (h : GenesisConfig.validate d c = .ok c')
    (hsafe : c'.safetyMargin ≤ c.padOf d) :
    GenesisConfig.validate d c' = .ok c' := by
  obtain ⟨h1, h2, hfit⟩ := validate_ok_elim d c c' h
  rcases fit_ok_cases d c c' hfit with rfl | ⟨bl, bu, hb, hord, hin, hauto, rfl⟩
  · exact h
  · have hsteps' : ¬ (c.grow d bl bu).steps < 1 := h1
    have hmin' : ¬ (0 < (c.grow d bl bu).min_bodies ∧
        ((c.grow d bl bu).mpm_bodies.length : ℤ) < (c.grow d bl bu).min_bodies) := h2
    have hordg : vlt (c.grow d bl bu).mpm_options.lower_bound
        (c.grow d bl bu).mpm_options.upper_bound := by
      rw [grow_lower, grow_upper]
      exact ⟨lt_of_le_of_lt (min_le_left _ _) (lt_of_lt_of_le hord.1 (le_max_left _ _)),
        lt_of_le_of_lt (min_le_left _ _) (lt_of_lt_of_le hord.2.1 (le_max_left _ _)),
        lt_of_le_of_lt (min_le_left _ _) (lt_of_lt_of_le hord.2.2 (le_max_left _ _))⟩
    have hin' : (c.grow d bl bu).insideEff bl bu := by
      refine ⟨?_, ?_⟩ <;>
        simp only [GenesisConfig.effLB, GenesisConfig.effUB, grow_lower, grow_upper, vle]
      · refine ⟨?_, ?_, ?_⟩
        · have := min_le_right c.mpm_options.lower_bound.x (bl.x - c.padOf d)
          linarith
        · have := min_le_right c.mpm_options.lower_bound.y (bl.y - c.padOf d)
          linarith
        · have := min_le_right c.mpm_options.lower_bound.z (bl.z - c.padOf d)
          linarith
      · refine ⟨?_, ?_, ?_⟩
        · have := le_max_right c.mpm_options.upper_bound.x (bu.x + c.padOf d)
          linarith
        · have := le_max_right c.mpm_options.upper_bound.y (bu.y + c.padOf d)
          linarith
        · have := le_max_right c.mpm_options.upper_bound.z (bu.z + c.padOf d)
          linarith
    have hbg : bodiesAABB (c.grow d bl bu).mpm_bodies = some (bl, bu) := hb
    rw [validate_eq_fit d _ hsteps' hmin']
    unfold GenesisConfig.check_or_fit_domain
    rw [if_neg (not_not_intro hordg)]
    simp only [hbg, if_pos hin']

/-- C1 witness: with the default padding fraction the grown scene
`cfgPadDefaultFit` is a fixed point — validating it again returns it
unchanged. -/
theorem autofit_fixed_point_witness :
    GenesisConfig.validate 3 cfgPadDefaultFit = .ok cfgPadDefaultFit :=
  autofit_fixed_point_of_safety_le_pad 3 cfgPadDefault cfgPadDefaultFit
    (by norm_num [GenesisConfig.validate, GenesisConfig.steps_positive,
      GenesisConfig.require_bodies, GenesisConfig.check_or_fit_domain,
      bodiesAABB_tall, GenesisConfig.insideEff, GenesisConfig.effLB,
      GenesisConfig.effUB, GenesisConfig.safetyMargin, GenesisConfig.grow,
      GenesisConfig.padOf, vle, vlt, cfgPadDefault, cfgPadDefaultFit, min_def, max_def])
    (by norm_num [GenesisConfig.safetyMargin, GenesisConfig.padOf,
      cfgPadDefault, cfgPadDefaultFit, min_def, max_def])

end Physicshop
